import Mathlib

/-!
Shallow embedding of the FermiHDI `nanog90` flow generator (`src/data_gen.py`)
and proofs about the spec's claims.

Conventions of the embedding:
* Python `int` becomes `Int` (record fields, addresses, timestamps);
  index-like quantities stay `Nat`.
* Randomness is an explicit oracle: a function `Nat → Nat` of draw index,
  threaded as a `Rng` (oracle plus next index).  `random.randrange(a, b)`
  is embedded as `a + draw % (b - a)` and `random.randint(a, b)` as
  `a + draw % (b - a + 1)`, so any oracle describes one possible run and
  every possible run is described by some oracle.
* Python `bytes` become `List Nat` (each entry a byte value).  The Python
  `FlowRecord.system_id` field holds a hex string that `to_bytes` decodes
  with `bytes.fromhex`; the embedding carries the decoded byte list
  directly.
* The ASN table rows are `List[List[str]]` in Python, holding decimal
  strings that the code converts with `int(...)`; the embedding carries the
  parsed integers (plus the two text columns) in a `Row` structure.
* Python exceptions become `Except String` results; a fallible statement
  such as `int.to_bytes` (which raises `OverflowError` when a value does
  not fit) becomes an `Option` value.
-/

/-- A random-draw oracle with an explicit next-draw index. -/
structure Rng where
  o : Nat → Nat
  i : Nat


/-- Take the next draw from the oracle. -/
def Rng.next (r : Rng) : Nat × Rng :=
  (r.o r.i, { r with i := r.i + 1 })

/-- `random.randrange(a, b)` on integers: a value in `[a, b)`. -/
def randrangeI (a b : Int) (d : Nat) : Int :=
  a + ((d % (b - a).toNat : Nat) : Int)

/-- `random.randint(a, b)` on integers: a value in `[a, b]`. -/
def randintI (a b : Int) (d : Nat) : Int :=
  a + ((d % (b - a + 1).toNat : Nat) : Int)

/-- `random.randrange(0, n)` used as an index draw. -/
def randidx (n : Nat) (d : Nat) : Nat :=
  d % n

/-- `FlowRecord` (src/data_gen.py): one unidirectional flow observation.
`system_id` is carried as the decoded byte list of the Python hex string. -/
structure FlowRecord where
  timestamp : Int
  system_id : List Nat
  srcaddr : Int
  dstaddr : Int
  nexthop : Int
  input : Int
  output : Int
  dPkts : Int
  dOctets : Int
  first : Int
  last : Int
  srcport : Int
  dstport : Int
  tcp_flags : Int
  protocol : Int
  tos : Int
  src_as : Int
  dst_as : Int
  src_mask : Int
  dst_mask : Int
deriving DecidableEq, Inhabited

/-- `ASNRoute` (src/data_gen.py): metadata of one selected route.  The
Python `TypedDict` is `total=False`: `next_hop` and `ifindex` are absent
until `make_route_table` assigns them; the embedding gives them value `0`
until then. -/
structure ASNRoute where
  subnet_bits : Nat := 0
  network_address : Int := 0
  broadcast_address : Int := 0
  next_hop : Int := 0
  ip_range_start : Int := 0
  ip_range_end : Int := 0
  asn : Int := 0
  country : String := ""
  as_description : String := ""
  ifindex : Int := 0
deriving DecidableEq, Inhabited

/-- `NetworkInterface` (src/data_gen.py): interface index plus next-hop
address.  The Python dict also keeps the dotted-quad string and packed
bytes forms; the embedding keeps the integer form (`next_hop_i`), which is
the only form the generator reads after resolution. -/
structure NetworkInterface where
  ifindex : Int
  next_hop_i : Int
deriving DecidableEq, Inhabited

/-- One row of the cleaned ip2asn table: `[range_start, range_end, asn,
country, description]`, with the three leading decimal-string columns
already parsed to integers (the code always reads them through
`int(...)`). -/
structure Row where
  range_start : Int
  range_end : Int
  asn : Int
  country : String
  description : String
deriving DecidableEq, Inhabited

/-- Dotted quad `a.b.c.d` as a big-endian 32-bit integer. -/
def mkIp (a b c d : Int) : Int :=
  ((a * 256 + b) * 256 + c) * 256 + d

/-- `DataGeneration.RECORD_LEN`. -/
def RECORD_LEN : Nat := 75

/-- `DataGeneration.DEFAULT_PEERING_INTERFACES`, with each interface's
`next_hop` string already resolved to its integer form, exactly as the
first loop of `make_route_table` computes it. -/
def DEFAULT_PEERING_INTERFACES : List NetworkInterface :=
  [ { ifindex := 10, next_hop_i := mkIp 10 0 10 2 },
    { ifindex := 11, next_hop_i := mkIp 10 0 20 2 },
    { ifindex := 12, next_hop_i := mkIp 10 0 30 2 },
    { ifindex := 13, next_hop_i := mkIp 10 0 40 2 },
    { ifindex := 14, next_hop_i := mkIp 10 0 0 2 } ]

/-- `DataGeneration.EPHEMERAL_PORTS`. -/
def EPHEMERAL_PORTS : Int × Int := (49152, 65535)

/-- `DataGeneration.INTERNAL_ASN`. -/
def INTERNAL_ASN : Int := 65000

/-- `DataGeneration.INTERNAL_SUBNET`. -/
def INTERNAL_SUBNET : Int := 24

/-- `DataGeneration.INTERNAL_IFINDEX` (the code also stores the constant
`next_hop_i = 167837954`, which indeed equals `int("10.1.1.2")`). -/
def INTERNAL_IFINDEX : NetworkInterface :=
  { ifindex := 100, next_hop_i := 167837954 }

/-- `DataGeneration.MAX_JITTER`. -/
def MAX_JITTER : Int := 6

/-- `DataGeneration.MAX_LIGHT_PACKET_BYTES`. -/
def MAX_LIGHT_PACKET_BYTES : Int := 4000000

/-- `DataGeneration.MIN_LIGHT_PACKET_BYTES`. -/
def MIN_LIGHT_PACKET_BYTES : Int := 2000000

/-- `DataGeneration.MAX_HEAVY_PACKET_BYTES`. -/
def MAX_HEAVY_PACKET_BYTES : Int := 20000000

/-- `DataGeneration.MIN_HEAVY_PACKET_BYTES`. -/
def MIN_HEAVY_PACKET_BYTES : Int := 4000000

/-- `DataGeneration.SERVER_AS_SOURCE_WEIGHT`. -/
def SERVER_AS_SOURCE_WEIGHT : Nat := 85

/-- `DataGeneration.SERVER_LATENCY`. -/
def SERVER_LATENCY : Int := 15

/-- `DataGeneration.SERVER_PORT`. -/
def SERVER_PORT : List Int := [443, 80, 22]

/-- The mutable `DataGeneration` instance state that flow generation
reads: `system_id` (decoded bytes), `route_table`, `server_list`.  The
route table is a Python `dict` keyed by ASN; the embedding keeps it as an
association list in insertion order, which is exactly the order
`list(dict.keys())` exposes to `random_client`. -/
structure DG where
  system_id : List Nat
  route_table : List (Int × ASNRoute)
  server_list : List Int

/-- Big-endian base-256 digits of `n`, `w` bytes wide (the byte layout of
Python's `n.to_bytes(w, byteorder="big")` when the value fits). -/
def beBytes : Nat → Nat → List Nat
  | 0, _ => []
  | w + 1, n => beBytes w (n / 256) ++ [n % 256]

/-- The value range accepted by Python `v.to_bytes(w, byteorder="big")`,
which raises `OverflowError` unless `0 ≤ v < 2^(8*w)`. -/
def fits (w : Nat) (v : Int) : Prop :=
  0 ≤ v ∧ v < (2 : Int) ^ (8 * w)

instance (w : Nat) (v : Int) : Decidable (fits w v) := by
  unfold fits; infer_instance

/-- All seventeen `.to_bytes(...)` calls of `DataGeneration.to_bytes`
succeed: each serialized integer field fits its declared width. -/
def recordFits (r : FlowRecord) : Prop :=
  fits 6 r.timestamp ∧ fits 4 r.srcaddr ∧ fits 4 r.dstaddr ∧
  fits 4 r.nexthop ∧ fits 4 r.dPkts ∧ fits 4 r.dOctets ∧
  fits 2 r.srcport ∧ fits 2 r.dstport ∧ fits 1 r.tcp_flags ∧
  fits 1 r.protocol ∧ fits 1 r.tos ∧ fits 2 r.src_as ∧
  fits 2 r.dst_as ∧ fits 4 r.src_mask ∧ fits 4 r.dst_mask ∧
  fits 2 r.input ∧ fits 2 r.output

instance (r : FlowRecord) : Decidable (recordFits r) := by
  unfold recordFits; infer_instance

/-- `DataGeneration.to_bytes` (src/data_gen.py lines 525-553): the
concatenation, in source order, of the record's binary fields; defined
exactly when every `.to_bytes(...)` call succeeds (Python raises
`OverflowError` otherwise).  The `first` and `last` fields are not
referenced.  `bytes.fromhex` of the stored hex string is the carried
`system_id` byte list. -/
def to_bytes (r : FlowRecord) : Option (List Nat) :=
  if recordFits r then
    some (beBytes 6 r.timestamp.toNat ++ r.system_id ++
          beBytes 4 r.srcaddr.toNat ++ beBytes 4 r.dstaddr.toNat ++
          beBytes 4 r.nexthop.toNat ++ beBytes 4 r.dPkts.toNat ++
          beBytes 4 r.dOctets.toNat ++ beBytes 2 r.srcport.toNat ++
          beBytes 2 r.dstport.toNat ++ beBytes 1 r.tcp_flags.toNat ++
          beBytes 1 r.protocol.toNat ++ beBytes 1 r.tos.toNat ++
          beBytes 2 r.src_as.toNat ++ beBytes 2 r.dst_as.toNat ++
          beBytes 4 r.src_mask.toNat ++ beBytes 4 r.dst_mask.toNat ++
          beBytes 2 r.input.toNat ++ beBytes 2 r.output.toNat)
  else none

theorem beBytes_length (w n : Nat) : (beBytes w n).length = w := by
  induction w generalizing n with
  | zero => rfl
  | succ w ih => simp [beBytes, ih]

/-- An all-zero flow record with a 32-byte system id (the width the claim
assigns to the `system_id` field). -/
def zeroRecord : FlowRecord :=
  { timestamp := 0, system_id := List.replicate 32 0, srcaddr := 0,
    dstaddr := 0, nexthop := 0, input := 0, output := 0, dPkts := 0,
    dOctets := 0, first := 0, last := 0, srcport := 0, dstport := 0,
    tcp_flags := 0, protocol := 0, tos := 0, src_as := 0, dst_as := 0,
    src_mask := 0, dst_mask := 0 }

example : (to_bytes zeroRecord).map List.length = some 81 := by decide

/-- C2 counterexample: at the all-zero record with a 32-byte system id,
`to_bytes` yields 81 bytes, not the declared `RECORD_LEN = 75` the claim
asserts (the claimed field widths 6+32+4+4+4+4+4+2+2+1+1+1+2+2+4+4+2+2 sum
to 81). -/
theorem to_bytes_length_ne_RECORD_LEN :
    (to_bytes zeroRecord).map List.length = some 81 ∧
    (to_bytes zeroRecord).map List.length ≠ some RECORD_LEN := by
  constructor
  · decide
  · decide

/-- C2 (amended): for every record whose integer fields fit their declared
widths and whose system id is 32 bytes, `to_bytes` succeeds and produces
exactly 81 bytes, laid out big-endian in the exact source order
timestamp(6) · system_id(32) · srcaddr(4) · dstaddr(4) · nexthop(4) ·
dPkts(4) · dOctets(4) · srcport(2) · dstport(2) · tcp_flags(1) ·
protocol(1) · tos(1) · src_as(2) · dst_as(2) · src_mask(4) · dst_mask(4) ·
input(2) · output(2) — 18 of the record's 20 named fields (`first` and
`last` are absent from the binary form). -/
theorem to_bytes_layout (r : FlowRecord) (bs : List Nat)
    (h : to_bytes r = some bs) (hsys : r.system_id.length = 32) :
    bs.length = 81 ∧
    bs = beBytes 6 r.timestamp.toNat ++ r.system_id ++
         beBytes 4 r.srcaddr.toNat ++ beBytes 4 r.dstaddr.toNat ++
         beBytes 4 r.nexthop.toNat ++ beBytes 4 r.dPkts.toNat ++
         beBytes 4 r.dOctets.toNat ++ beBytes 2 r.srcport.toNat ++
         beBytes 2 r.dstport.toNat ++ beBytes 1 r.tcp_flags.toNat ++
         beBytes 1 r.protocol.toNat ++ beBytes 1 r.tos.toNat ++
         beBytes 2 r.src_as.toNat ++ beBytes 2 r.dst_as.toNat ++
         beBytes 4 r.src_mask.toNat ++ beBytes 4 r.dst_mask.toNat ++
         beBytes 2 r.input.toNat ++ beBytes 2 r.output.toNat := by
  have hfit : recordFits r := by
    by_contra hf
    rw [to_bytes, if_neg hf] at h
    exact Option.noConfusion h
  rw [to_bytes, if_pos hfit] at h
  have hb : bs = _ := (Option.some.inj h).symm
  refine ⟨?_, hb⟩
  rw [hb]
  simp only [List.length_append, beBytes_length, hsys]

/-- Witness for `to_bytes_layout` at the all-zero record. -/
theorem to_bytes_layout_witness :
    (List.replicate 81 (0 : Nat)).length = 81 ∧
    List.replicate 81 (0 : Nat) =
      beBytes 6 zeroRecord.timestamp.toNat ++ zeroRecord.system_id ++
      beBytes 4 zeroRecord.srcaddr.toNat ++ beBytes 4 zeroRecord.dstaddr.toNat ++
      beBytes 4 zeroRecord.nexthop.toNat ++ beBytes 4 zeroRecord.dPkts.toNat ++
      beBytes 4 zeroRecord.dOctets.toNat ++ beBytes 2 zeroRecord.srcport.toNat ++
      beBytes 2 zeroRecord.dstport.toNat ++ beBytes 1 zeroRecord.tcp_flags.toNat ++
      beBytes 1 zeroRecord.protocol.toNat ++ beBytes 1 zeroRecord.tos.toNat ++
      beBytes 2 zeroRecord.src_as.toNat ++ beBytes 2 zeroRecord.dst_as.toNat ++
      beBytes 4 zeroRecord.src_mask.toNat ++ beBytes 4 zeroRecord.dst_mask.toNat ++
      beBytes 2 zeroRecord.input.toNat ++ beBytes 2 zeroRecord.output.toNat :=
  to_bytes_layout zeroRecord (List.replicate 81 0) (by decide) (by decide)

/-- C10: the binary serialization reads neither `first` nor `last`: two
records differing only there serialize identically. -/
theorem to_bytes_ignores_first_last (r : FlowRecord) (f l : Int) :
    to_bytes { r with first := f, last := l } = to_bytes r := rfl

/-- The `subnet_table` built at the top of `random_asns` (src/data_gen.py
lines 267-274): a 25-entry list, zero except at indices 8..24 where entry
`i` holds `2^i`. -/
def subnetTable (i : Nat) : Int :=
  if 8 ≤ i ∧ i ≤ 24 then 2 ^ i else 0

/-- The `for sub in range(24, 7, -1)` subnet scan of `random_asns`
(src/data_gen.py lines 279-287): starting from `subnet = 8`, walk `sub`
downward from 24 and break with `subnet = sub` at the first `sub` with
`not (diff > subnet_table[sub])`, i.e. `diff ≤ subnet_table[sub]`. -/
def findSubnetAux (diff : Int) : Nat → Nat
  | 0 => 8
  | s + 1 =>
    if s + 1 < 8 then 8
    else if diff ≤ subnetTable (s + 1) then s + 1
    else findSubnetAux diff s

/-- The subnet size `random_asns` computes for a row whose address range
width (`broadcast - network`) is `diff`. -/
def findSubnet (diff : Int) : Nat :=
  findSubnetAux diff 24

/-- Modelled from the claim's words (for comparison with `findSubnet`,
which is the code's computation): the largest subnet size `s ∈ [8, 24]`
such that `2^s` does not exceed the range width, clamped to that
interval. -/
def largestFittingSubnet (width : Int) : Nat :=
  (((List.range 17).map (fun j => 24 - j)).find?
    (fun s => decide ((2 : Int) ^ s ≤ width))).getD 8

/-- Python `dict` assignment `d[k] = v` on an association list: replace
the value if the key is present, else append the pair. -/
def dictInsert (k : Int) (v : ASNRoute) :
    List (Int × ASNRoute) → List (Int × ASNRoute)
  | [] => [(k, v)]
  | (k', v') :: rest =>
    if k' = k then (k, v) :: rest else (k', v') :: dictInsert k v rest

/-- One iteration of the selection loop of `random_asns` (src/data_gen.py
lines 276-302): draw a uniformly random index into the remaining table,
build the `ASNRoute` for that row, and delete the row in place. -/
def selectOne (asn_table : List Row) (rng : Rng) :
    ASNRoute × List Row × Rng :=
  let (d, rng') := rng.next
  let i := randidx asn_table.length d
  let row := asn_table.getD i default
  let route : ASNRoute :=
    { subnet_bits := findSubnet (row.range_end - row.range_start)
      network_address := row.range_start
      broadcast_address := row.range_end
      ip_range_start := row.range_start + 2
      ip_range_end := row.range_end - 1
      asn := row.asn
      country := row.country
      as_description := row.description }
  (route, asn_table.eraseIdx i, rng')

/-- The `for x in range(asns_to_select)` loop of `random_asns`,
accumulating the new ASN-keyed dict while deleting chosen rows. -/
def randomAsnsGo : Nat → List Row → List (Int × ASNRoute) → Rng →
    List (Int × ASNRoute) × List Row × Rng
  | 0, table, acc, rng => (acc, table, rng)
  | k + 1, table, acc, rng =>
    let (route, table', rng') := selectOne table rng
    randomAsnsGo k table' (dictInsert route.asn route acc) rng'

/-- `DataGeneration.random_asns` (src/data_gen.py lines 251-303).  The
result pairs the Python outcome (`ValueError` or the new dict) with the
state of the caller's `asn_table` after the call: the length check is the
function's first statement, so when it raises, the table has not been
touched. -/
def random_asns (asn_table : List Row) (asns_to_select : Nat) (rng : Rng) :
    Except String (List (Int × ASNRoute)) × List Row × Rng :=
  if asn_table.length < asns_to_select then
    (Except.error "More ASNs requested then in the route table provided",
     asn_table, rng)
  else
    let res := randomAsnsGo asns_to_select asn_table [] rng
    (Except.ok res.1, res.2.1, res.2.2)

/-- After the next-hop resolution loop `for interface in
self.DEFAULT_PEERING_INTERFACES` finishes, the Python loop variable
`interface` stays bound to the LAST pool entry; the assignment loop of
`make_route_table` reads `interface["ifindex"]` from that stale
binding. -/
def staleInterface : NetworkInterface :=
  DEFAULT_PEERING_INTERFACES.getLastD default

/-- The per-ASN assignment loop of `make_route_table` (src/data_gen.py
lines 327-334): draw `ifindex = randrange(0, 5)`, set the route's
`next_hop` from the drawn pool entry, and set the route's `ifindex` from
the stale `interface` variable. -/
def makeRouteGo : List (Int × ASNRoute) → Rng →
    List (Int × ASNRoute) × Rng
  | [], rng => ([], rng)
  | (a, r) :: rest, rng =>
    let (d, rng') := rng.next
    let ifindex := randidx DEFAULT_PEERING_INTERFACES.length d
    let r' := { r with
      next_hop := (DEFAULT_PEERING_INTERFACES.getD ifindex default).next_hop_i
      ifindex := staleInterface.ifindex }
    let (rest', rng'') := makeRouteGo rest rng'
    ((a, r') :: rest', rng'')

/-- `DataGeneration.make_route_table` (src/data_gen.py lines 305-337),
with the interface next-hop strings already resolved (see
`DEFAULT_PEERING_INTERFACES`). -/
def make_route_table (asns : List (Int × ASNRoute)) (rng : Rng) :
    List (Int × ASNRoute) × Rng :=
  makeRouteGo asns rng

/-- The descending scan of `random_asns` breaks at `sub = 24` whenever the
range width is at most `2^24`, and otherwise never breaks: the computed
subnet size is always 24 or 8. -/
theorem findSubnet_eq (diff : Int) :
    findSubnet diff = if diff ≤ (2 : Int) ^ 24 then 24 else 8 := by
  by_cases h : diff ≤ (2 : Int) ^ 24
  · rw [if_pos h]
    have h' : diff ≤ (16777216 : Int) := by
      calc diff ≤ (2 : Int) ^ 24 := h
        _ = 16777216 := by norm_num
    simp [findSubnet, findSubnetAux, subnetTable, h']
  · simp only [h, if_false]
    have key : ∀ s : Nat, s ≤ 24 → findSubnetAux diff s = 8 := by
      intro s
      induction s with
      | zero => intro _; rfl
      | succ n ih =>
        intro hs
        by_cases h8 : n + 1 < 8
        · simp [findSubnetAux, h8]
        · have hpow : subnetTable (n + 1) ≤ (2 : Int) ^ 24 := by
            unfold subnetTable
            split
            · exact pow_le_pow_right₀ (by norm_num) hs
            · positivity
          have hgt : ¬ diff ≤ subnetTable (n + 1) := by
            intro hc
            exact h (le_trans hc hpow)
          simp only [findSubnetAux, if_neg h8, if_neg hgt]
          exact ih (Nat.le_of_succ_le hs)
    exact key 24 le_rfl

/-- Test row: range `[0, 254]` (the minimum width the ip2asn filter keeps),
a realistic public ASN. -/
def testRow : Row :=
  { range_start := 0, range_end := 254, asn := 3320,
    country := "US", description := "TEST" }

/-- C4 counterexample: selecting the width-254 row `testRow`, `random_asns`
records `subnet_bits = 24`, although no subnet of size ≥ 8 fits in a range
of width 254 (the claim's value, clamped, is 8): the scan breaks at the
FIRST `sub` (from above) whose `2^sub` covers the width, not at the
largest subnet fitting inside it. -/
theorem selectRandomASNs_subnet_counterexample :
    (random_asns [testRow] 1 { o := fun _ => 0, i := 0 }).1.toOption =
      some [(3320,
        { subnet_bits := 24, network_address := 0, broadcast_address := 254,
          next_hop := 0, ip_range_start := 2, ip_range_end := 253,
          asn := 3320, country := "US", as_description := "TEST",
          ifindex := 0 })] ∧
    largestFittingSubnet (254 - 0) = 8 ∧ (24 : Nat) ≠ 8 := by
  refine ⟨?_, by decide, by decide⟩
  decide

/-- C4 (amended): each selection step of `random_asns` picks some row of
the remaining table and derives that row's route with the usable range
`[network+2, broadcast-1]` — but `subnet_bits` is 24 whenever the row's
width fits below `2^24` (else 8): the descending scan breaks at the first
subnet size whose `2^sub` covers the width, not at the largest subnet
fitting inside it, so only the values 24 and 8 occur. -/
theorem selectOne_subnet (t : List Row) (rng : Rng) (h : t ≠ []) :
    ∃ row ∈ t,
      (selectOne t rng).1 =
        { subnet_bits :=
            if row.range_end - row.range_start ≤ (2 : Int) ^ 24 then 24 else 8,
          network_address := row.range_start,
          broadcast_address := row.range_end,
          next_hop := 0,
          ip_range_start := row.range_start + 2,
          ip_range_end := row.range_end - 1,
          asn := row.asn,
          country := row.country,
          as_description := row.description,
          ifindex := 0 } := by
  have hlen : 0 < t.length := List.length_pos.mpr h
  have hi : randidx t.length (rng.o rng.i) < t.length := Nat.mod_lt _ hlen
  refine ⟨t.getD (randidx t.length (rng.o rng.i)) default, ?_, ?_⟩
  · rw [List.getD_eq_getElem t default hi]
    exact List.getElem_mem hi
  · unfold selectOne
    simp only [Rng.next]
    rw [findSubnet_eq]

/-- Witness for `selectOne_subnet` at the one-row table `[testRow]`. -/
theorem selectOne_subnet_witness :
    ∃ row ∈ [testRow],
      (selectOne [testRow] { o := fun _ => 0, i := 0 }).1 =
        { subnet_bits :=
            if row.range_end - row.range_start ≤ (2 : Int) ^ 24 then 24 else 8,
          network_address := row.range_start,
          broadcast_address := row.range_end,
          next_hop := 0,
          ip_range_start := row.range_start + 2,
          ip_range_end := row.range_end - 1,
          asn := row.asn,
          country := row.country,
          as_description := row.description,
          ifindex := 0 } :=
  selectOne_subnet [testRow] { o := fun _ => 0, i := 0 } (by decide)

/-- C8: `random_asns` raises its `ValueError` exactly when more ASNs are
requested than the table holds, and the length check precedes the
selection loop, so on that failure path the caller's `asn_table` (and the
random state) pass through untouched. -/
theorem selectRandomASNs_error_iff (t : List Row) (k : Nat) (rng : Rng) :
    ((∃ msg, (random_asns t k rng).1 = Except.error msg) ↔ t.length < k) ∧
    (t.length < k →
      (random_asns t k rng).2.1 = t ∧ (random_asns t k rng).2.2 = rng) := by
  by_cases h : t.length < k
  · simp [random_asns, h]
  · simp [random_asns, h]

/-- Witness for `selectRandomASNs_error_iff`: requesting 2 ASNs from a
one-row table fails and leaves the table unchanged. -/
theorem selectRandomASNs_error_iff_witness :
    (∃ msg,
      (random_asns [testRow] 2 { o := fun _ => 0, i := 0 }).1 =
        Except.error msg) ∧
    (random_asns [testRow] 2 { o := fun _ => 0, i := 0 }).2.1 = [testRow] :=
  ⟨(selectRandomASNs_error_iff [testRow] 2 { o := fun _ => 0, i := 0 }).1.mpr
      (by decide),
   ((selectRandomASNs_error_iff [testRow] 2 { o := fun _ => 0, i := 0 }).2
      (by decide)).1⟩

/-- The route fed to `make_route_table` in the C5 failing input. -/
def testRouteIn : ASNRoute :=
  { subnet_bits := 24, network_address := 0, broadcast_address := 254,
    ip_range_start := 2, ip_range_end := 253, asn := 3320,
    country := "US", as_description := "TEST" }

/-- C5 (code bug, evaluated at the failing input): drawing pool entry 0,
`make_route_table` assigns that entry's next-hop `10.0.10.2 = 167774722`
but ifindex 14 — the ifindex of the LAST pool entry (`10.0.0.2`), read
from the stale `interface` loop variable — although the drawn entry's own
ifindex is 10. -/
theorem make_route_table_stale_ifindex :
    (make_route_table [(3320, testRouteIn)] { o := fun _ => 0, i := 0 }).1 =
      [(3320, { testRouteIn with next_hop := 167774722, ifindex := 14 })] ∧
    DEFAULT_PEERING_INTERFACES.getD 0 default =
      { ifindex := 10, next_hop_i := 167774722 } ∧
    staleInterface.ifindex = 14 ∧ ((14 : Int) ≠ 10) := by
  refine ⟨by decide, by decide, by decide, by decide⟩

/-- The 5-tuple `random_client` returns: `(Selected_IP_Address,
Next_Hop_Address, Subnet, ASN, IFIndex)`. -/
structure ClientPick where
  ip : Int
  next_hop : Int
  subnet : Nat
  asn : Int
  ifindex : Int
deriving DecidableEq, Inhabited

/-- `DataGeneration.random_client` (src/data_gen.py lines 373-401): draw a
route uniformly from the route table (by position in `list(keys())`
order), then an address uniformly from `[ip_range_start, ip_range_end)`. -/
def random_client (dg : DG) (rng : Rng) : ClientPick × Rng :=
  let (d1, rng') := rng.next
  let route := (dg.route_table.getD (randidx dg.route_table.length d1) default).2
  let (d2, rng'') := rng'.next
  let ip := randrangeI route.ip_range_start route.ip_range_end d2
  ({ ip := ip, next_hop := route.next_hop, subnet := route.subnet_bits,
     asn := route.asn, ifindex := route.ifindex }, rng'')

/-- `DataGeneration.random_server` (src/data_gen.py lines 403-415). -/
def random_server (dg : DG) (rng : Rng) : Int × Rng :=
  let (d, rng') := rng.next
  (dg.server_list.getD (randidx dg.server_list.length d) default, rng')

/-- The heavy-side condition of `generate_flow_record` (src/data_gen.py
line 442): `randrange(0, 100) > SERVER_AS_SOURCE_WEIGHT` makes the CLIENT
the heavy sender. -/
def clientIsHeavy (d : Nat) : Bool :=
  SERVER_AS_SOURCE_WEIGHT < d

/-- `DataGeneration.generate_flow_record` (src/data_gen.py lines 417-523):
generate the client flow at `time_index` and the matching future server
flow, consuming eleven random draws in source order. -/
def generate_flow_record (dg : DG) (time_index : Int) (rng : Rng) :
    FlowRecord × FlowRecord × Rng :=
  let (client, rng1) := random_client dg rng
  let (server, rng2) := random_server dg rng1
  let (d4, rng3) := rng2.next
  let heavy_transfer_size :=
    randintI MIN_HEAVY_PACKET_BYTES MAX_HEAVY_PACKET_BYTES d4
  let (d5, rng4) := rng3.next
  let light_transfer_size :=
    randintI MIN_LIGHT_PACKET_BYTES MAX_LIGHT_PACKET_BYTES d5
  let (d6, rng5) := rng4.next
  let transfers :=
    if clientIsHeavy (randidx 100 d6) then
      (heavy_transfer_size, light_transfer_size)
    else
      (light_transfer_size, heavy_transfer_size)
  let client_transfer := transfers.1
  let server_transfer := transfers.2
  let client_packets := client_transfer / 1200
  let (d7, rng6) := rng5.next
  let client_port := randintI EPHEMERAL_PORTS.1 EPHEMERAL_PORTS.2 d7
  let server_packets := server_transfer / 1200
  let (d8, rng7) := rng6.next
  let client_start_time := time_index - randintI 1 60000 d8
  let (d9, rng8) := rng7.next
  let server_start_time := time_index - randintI 1 60000 d9
  let (d10, rng9) := rng8.next
  let server_port := SERVER_PORT.getD (randidx 3 d10) default
  let client_flow : FlowRecord :=
    { timestamp := time_index
      system_id := dg.system_id
      srcaddr := client.ip
      dstaddr := server
      nexthop := INTERNAL_IFINDEX.next_hop_i
      dPkts := client_packets
      dOctets := client_transfer
      first := client_start_time
      last := time_index
      srcport := client_port
      dstport := server_port
      tcp_flags := 0
      protocol := 6
      tos := 0
      src_as := client.asn
      dst_as := INTERNAL_ASN
      src_mask := (client.subnet : Int)
      dst_mask := INTERNAL_SUBNET
      input := client.ifindex
      output := INTERNAL_IFINDEX.ifindex }
  let (d11, rng10) := rng9.next
  let server_time := time_index + SERVER_LATENCY + randrangeI 0 MAX_JITTER d11
  let server_flow : FlowRecord :=
    { timestamp := server_time
      system_id := dg.system_id
      srcaddr := server
      dstaddr := client.ip
      nexthop := client.next_hop
      dPkts := server_packets
      dOctets := server_transfer
      first := server_start_time
      last := time_index
      srcport := server_port
      dstport := client_port
      tcp_flags := 0
      protocol := 6
      tos := 0
      src_as := INTERNAL_ASN
      dst_as := client.asn
      src_mask := INTERNAL_SUBNET
      dst_mask := (client.subnet : Int)
      input := INTERNAL_IFINDEX.ifindex
      output := client.ifindex }
  (client_flow, server_flow, rng10)

/-- C9: the client record carries `timestamp = timeIndex`; the server
record carries `timestamp = timeIndex + SERVER_LATENCY + jitter` with
`jitter = randrange(0, 6) ∈ [0, 5]`, so the client timestamp is always
strictly below the server timestamp by at least the latency constant. -/
theorem generatePair_timestamps (dg : DG) (ti : Int) (rng : Rng) :
    (generate_flow_record dg ti rng).1.timestamp = ti ∧
    ∃ j : Nat, j < 6 ∧
      (generate_flow_record dg ti rng).2.1.timestamp =
        ti + SERVER_LATENCY + (j : Int) ∧
      (generate_flow_record dg ti rng).1.timestamp + SERVER_LATENCY ≤
        (generate_flow_record dg ti rng).2.1.timestamp ∧
      (generate_flow_record dg ti rng).1.timestamp <
        (generate_flow_record dg ti rng).2.1.timestamp := by
  have hc : (generate_flow_record dg ti rng).1.timestamp = ti := rfl
  have hs : (generate_flow_record dg ti rng).2.1.timestamp =
      ti + SERVER_LATENCY + ((rng.o (rng.i + 10) % 6 : Nat) : Int) := by
    simp [generate_flow_record, random_client, random_server, Rng.next,
      randrangeI, MAX_JITTER]
  refine ⟨hc, rng.o (rng.i + 10) % 6, Nat.mod_lt _ (by norm_num), hs, ?_, ?_⟩
  · rw [hc, hs]; unfold SERVER_LATENCY; omega
  · rw [hc, hs]; unfold SERVER_LATENCY; omega

/-- C6 counterexample: the client-heavy branch fires on `draw > 85`, which
holds for 14 of the 100 equally likely draws `0..99` — not the claimed
15. -/
theorem clientIsHeavy_weight_counterexample :
    ((Finset.range 100).filter (fun d => clientIsHeavy d = true)).card = 14 ∧
    ((Finset.range 100).filter (fun d => clientIsHeavy d = true)).card ≠ 15 := by
  constructor
  · decide
  · decide

/-- C6 (amended): the client receives the heavy transfer exactly when the
uniform draw over `0..99` exceeds `SERVER_AS_SOURCE_WEIGHT = 85` — 14 of
the 100 equally likely outcomes (probability 14%), the server being the
heavy side on the remaining 86 (86%). -/
theorem generatePair_heavy_side (dg : DG) (ti : Int) (rng : Rng) :
    ((generate_flow_record dg ti rng).1.dOctets,
     (generate_flow_record dg ti rng).2.1.dOctets) =
      (if clientIsHeavy (randidx 100 (rng.o (rng.i + 5))) then
        (randintI MIN_HEAVY_PACKET_BYTES MAX_HEAVY_PACKET_BYTES
           (rng.o (rng.i + 3)),
         randintI MIN_LIGHT_PACKET_BYTES MAX_LIGHT_PACKET_BYTES
           (rng.o (rng.i + 4)))
      else
        (randintI MIN_LIGHT_PACKET_BYTES MAX_LIGHT_PACKET_BYTES
           (rng.o (rng.i + 4)),
         randintI MIN_HEAVY_PACKET_BYTES MAX_HEAVY_PACKET_BYTES
           (rng.o (rng.i + 3)))) ∧
    ((Finset.range 100).filter (fun d => clientIsHeavy d = true)).card = 14 ∧
    ((Finset.range 100).filter (fun d => ¬ (clientIsHeavy d = true))).card
      = 86 := by
  refine ⟨?_, by decide, by decide⟩
  by_cases hcond : clientIsHeavy (randidx 100 (rng.o (rng.i + 5))) = true
  · simp [generate_flow_record, random_client, random_server, Rng.next, hcond]
  · simp [generate_flow_record, random_client, random_server, Rng.next, hcond]

/-- The scalar parameters `generate_data` receives from the driver. -/
structure GenCfg where
  flows_to_make : Nat
  flows_per_ms : Nat
  sampling_rate : Nat

/-- `fps = flows_per_ms * 1000` (src/data_gen.py line 582). -/
def fpsOf (cfg : GenCfg) : Nat :=
  cfg.flows_per_ms * 1000

/-- `fps_after_sampling` (src/data_gen.py lines 583-584): `fps //
sampling_rate`, clamped up to 1 when the quotient is zero.  (Python
raises `ZeroDivisionError` for `sampling_rate = 0`; the embedding's `/ 0 =
0` branch is then clamped to 1 — the claims only concern ratios ≥ 1.) -/
def fpsAfterSampling (cfg : GenCfg) : Nat :=
  let x := fpsOf cfg / cfg.sampling_rate
  if 0 < x then x else 1

/-- `segments = fps // fps_after_sampling` (src/data_gen.py line 585). -/
def segmentsOf (cfg : GenCfg) : Nat :=
  fpsOf cfg / fpsAfterSampling cfg

/-- Look a timestamp key up in the `flow_buffer` dict. -/
def bufLookup (b : List (Int × List FlowRecord)) (t : Int) :
    Option (List FlowRecord) :=
  (b.find? (fun p => p.1 == t)).map Prod.snd

/-- `del flow_buffer[t]`: drop the entry with the given key. -/
def bufErase (b : List (Int × List FlowRecord)) (t : Int) :
    List (Int × List FlowRecord) :=
  b.filter (fun p => !(p.1 == t))

/-- `flow_buffer[t].append(r)` with the `KeyError` fallback
`flow_buffer[t] = [r]` (src/data_gen.py lines 626-632): append to the
existing key's list, else add a new key (Python dicts keep insertion
order, so a fresh key goes to the end). -/
def bufInsert (t : Int) (r : FlowRecord) :
    List (Int × List FlowRecord) → List (Int × List FlowRecord)
  | [] => [(t, [r])]
  | (k, l) :: rest =>
    if k == t then (k, l ++ [r]) :: rest
    else (k, l) :: bufInsert t r rest

/-- The `while len(flows) < flows_per_ms` loop of `generate_data`
(src/data_gen.py lines 619-633), run for its remaining `n` iterations:
each iteration generates a pair at the current millisecond, appends the
client flow to the working set and inserts the server flow into the
future-flow buffer keyed by the server flow's own timestamp. -/
def genFill (dg : DG) (clock : Int) :
    Nat → List FlowRecord → List (Int × List FlowRecord) → Rng →
    List FlowRecord × List (Int × List FlowRecord) × Rng
  | 0, flows, buffer, rng => (flows, buffer, rng)
  | n + 1, flows, buffer, rng =>
    let res := generate_flow_record dg clock rng
    genFill dg clock n (flows ++ [res.1])
      (bufInsert res.2.1.timestamp res.2.1 buffer) res.2.2

/-- The loop state of `generate_data` (src/data_gen.py lines 577-656):
the millisecond clock `time_index_ms`, the two running counters, the
future-flow buffer, the raw and sampled output streams (the sequences of
`writerow` calls, in order), the current one-second buffer `raw_flows`,
and the random state. -/
structure GenState where
  clock : Int
  total : Nat
  buffer : List (Int × List FlowRecord)
  rawOut : List FlowRecord
  rawSecond : List FlowRecord
  sampledOut : List FlowRecord
  totalSampled : Nat
  rng : Rng

/-- One iteration of the `for _ in range(1000)` millisecond loop
(src/data_gen.py lines 610-645): drain the future-flow buffer at the
current millisecond (a missing key silently yields the empty working
set), top the working set up to `flows_per_ms` fresh pairs, emit the
working set to the raw stream and the one-second buffer, and advance the
clock. -/
def runTick (cfg : GenCfg) (dg : DG) (st : GenState) : GenState :=
  let drained := (bufLookup st.buffer st.clock).getD []
  let buffer1 := bufErase st.buffer st.clock
  let res := genFill dg st.clock (cfg.flows_per_ms - drained.length)
    drained buffer1 st.rng
  { st with
    clock := st.clock + 1
    total := st.total + res.1.length
    buffer := res.2.1
    rawOut := st.rawOut ++ res.1
    rawSecond := st.rawSecond ++ res.1
    rng := res.2.2 }

/-- Run `n` iterations of the millisecond loop. -/
def runTicks (cfg : GenCfg) (dg : DG) : Nat → GenState → GenState
  | 0, st => st
  | n + 1, st => runTicks cfg dg n (runTick cfg dg st)

/-- The per-second sampling loop `for _ in range(segments)`
(src/data_gen.py lines 647-655), carrying `start_index` and `end_index`:
draw `randint(start_index, end_index)`, clamp any out-of-buffer draw to
the last valid index, emit that record, then advance `start_index` to
`end_index + 1` and `end_index` by `sampling_rate - 1`. -/
def sampleLoop (R : Nat) (raws : List FlowRecord) :
    Nat → Nat → Nat → Rng → List FlowRecord × Rng
  | 0, _, _, rng => ([], rng)
  | k + 1, start, stop, rng =>
    let (d, rng') := rng.next
    let rf0 := start + d % (stop - start + 1)
    let rf := if rf0 < raws.length then rf0 else raws.length - 1
    let rest := sampleLoop R raws k (stop + 1) (stop + R - 1) rng'
    (raws.getD rf default :: rest.1, rest.2)

/-- The sampling pass at the end of each one-second window
(src/data_gen.py lines 647-656): run the segment loop over the
accumulated `raw_flows`, append its output to the sampled stream, count
`segments` sampled flows, and clear the one-second buffer. -/
def applySampling (cfg : GenCfg) (st1 : GenState) : GenState :=
  let res := sampleLoop cfg.sampling_rate st1.rawSecond (segmentsOf cfg)
    0 (cfg.sampling_rate - 1) st1.rng
  { st1 with
    sampledOut := st1.sampledOut ++ res.1
    totalSampled := st1.totalSampled + segmentsOf cfg
    rawSecond := []
    rng := res.2 }

/-- One iteration of the outer `while total_flows_made < flows_to_make`
loop (src/data_gen.py lines 608-660): 1000 millisecond ticks, then the
sampling pass over the accumulated one-second buffer. -/
def runSecond (cfg : GenCfg) (dg : DG) (st : GenState) : GenState :=
  applySampling cfg (runTicks cfg dg 1000 st)

/-- The outer `while` loop of `generate_data`, with explicit fuel
bounding the number of one-second iterations (the Python loop runs until
the flow quota is met; a run whose fuel sufficed ends with `total ≥
flows_to_make`). -/
def runGen (cfg : GenCfg) (dg : DG) : Nat → GenState → GenState
  | 0, st => st
  | fuel + 1, st =>
    if st.total < cfg.flows_to_make then
      runGen cfg dg fuel (runSecond cfg dg st)
    else st

/-- The state `generate_data` starts its loop from (src/data_gen.py lines
577-604): clock at 60000, empty buffers and counters; the discarded
header-probing call `generate_flow_record(0)` at line 593 has already
consumed its eleven draws. -/
def initState (dg : DG) (o : Nat → Nat) : GenState :=
  { clock := 60000, total := 0, buffer := [], rawOut := [],
    rawSecond := [], sampledOut := [], totalSampled := 0,
    rng := (generate_flow_record dg 0 { o := o, i := 0 }).2.2 }

/-- `DataGeneration.generate_data` (src/data_gen.py lines 555-677),
as a function of the configuration, instance state, random oracle and
fuel. -/
def generate_data (cfg : GenCfg) (dg : DG) (o : Nat → Nat) (fuel : Nat) :
    GenState :=
  runGen cfg dg fuel (initState dg o)

/-- Well-formedness of the future-flow buffer relative to a lower bound
`m` on pending keys: every entry's key is at least `m`, and every stored
record carries exactly its entry's key as timestamp (records are filed
under their own timestamps). -/
def BufWF (m : Int) (b : List (Int × List FlowRecord)) : Prop :=
  ∀ p ∈ b, m ≤ p.1 ∧ ∀ r ∈ p.2, r.timestamp = p.1

theorem BufWF_mono {m m' : Int} (h : m ≤ m') {b : List (Int × List FlowRecord)}
    (hb : BufWF m' b) : BufWF m b := by
  intro p hp
  exact ⟨le_trans h (hb p hp).1, (hb p hp).2⟩

theorem bufErase_wf {m : Int} {b : List (Int × List FlowRecord)}
    (hb : BufWF m b) : BufWF (m + 1) (bufErase b m) := by
  intro p hp
  rw [bufErase, List.mem_filter] at hp
  obtain ⟨hpb, hne⟩ := hp
  have h1 := hb p hpb
  have h2 : p.1 ≠ m := by
    intro heq
    simp [heq] at hne
  exact ⟨by omega, h1.2⟩

theorem bufInsert_wf {m t : Int} {r : FlowRecord}
    (hm : m ≤ t) (hr : r.timestamp = t) :
    ∀ {b : List (Int × List FlowRecord)}, BufWF m b →
      BufWF m (bufInsert t r b) := by
  intro b
  induction b with
  | nil =>
    intro _ p hp
    simp only [bufInsert, List.mem_singleton] at hp
    subst hp
    refine ⟨hm, ?_⟩
    intro x hx
    simp only [List.mem_singleton] at hx
    subst hx
    exact hr
  | cons hd tl ih =>
    intro hb p hp
    obtain ⟨k, l⟩ := hd
    simp only [bufInsert] at hp
    by_cases hk : (k == t) = true
    · rw [if_pos hk] at hp
      have hkt : k = t := by simpa using hk
      rcases List.mem_cons.mp hp with h1 | h2
      · subst h1
        refine ⟨by simpa [hkt] using hm, ?_⟩
        intro x hx
        rcases List.mem_append.mp hx with hxl | hxr
        · exact (hb (k, l) (List.mem_cons_self _ _)).2 x hxl
        · simp only [List.mem_singleton] at hxr
          subst hxr
          rw [hr, hkt]
      · exact hb p (List.mem_cons_of_mem _ h2)
    · rw [if_neg hk] at hp
      rcases List.mem_cons.mp hp with h1 | h2
      · subst h1
        exact hb (k, l) (List.mem_cons_self _ _)
      · exact ih (fun q hq => hb q (List.mem_cons_of_mem _ hq)) p h2

theorem genFill_spec (dg : DG) (c m : Int) (hm : m ≤ c + SERVER_LATENCY) :
    ∀ (n : Nat) (flows : List FlowRecord)
      (buffer : List (Int × List FlowRecord)) (rng : Rng),
      BufWF m buffer → (∀ r ∈ flows, r.timestamp = c) →
      (∀ r ∈ (genFill dg c n flows buffer rng).1, r.timestamp = c) ∧
      BufWF m (genFill dg c n flows buffer rng).2.1 := by
  intro n
  induction n with
  | zero =>
    intro flows buffer rng hb hf
    exact ⟨hf, hb⟩
  | succ n ih =>
    intro flows buffer rng hb hf
    obtain ⟨hc, j, hj, hs, _, _⟩ := generatePair_timestamps dg c rng
    simp only [genFill]
    apply ih
    · apply bufInsert_wf ?_ rfl hb
      rw [hs]
      have : (0 : Int) ≤ (j : Int) := Int.natCast_nonneg j
      omega
    · intro r hr
      rcases List.mem_append.mp hr with h1 | h2
      · exact hf r h1
      · simp only [List.mem_singleton] at h2
        subst h2
        exact hc

/-- Records all carrying one timestamp are trivially non-decreasing. -/
theorem pairwise_of_const_ts {c : Int} :
    ∀ {l : List FlowRecord}, (∀ r ∈ l, r.timestamp = c) →
      List.Pairwise (fun a b => a.timestamp ≤ b.timestamp) l := by
  intro l
  induction l with
  | nil => intro _; exact List.Pairwise.nil
  | cons hd tl ih =>
    intro h
    refine List.Pairwise.cons ?_ (ih fun r hr => h r (List.mem_cons_of_mem _ hr))
    intro b hb
    rw [h hd (List.mem_cons_self _ _), h b (List.mem_cons_of_mem _ hb)]

theorem drained_ts {st : GenState} (h : BufWF st.clock st.buffer) :
    ∀ r ∈ (bufLookup st.buffer st.clock).getD [], r.timestamp = st.clock := by
  intro r hr
  unfold bufLookup at hr
  cases hfind : st.buffer.find? (fun p => p.1 == st.clock) with
  | none => rw [hfind] at hr; simp at hr
  | some p =>
    rw [hfind] at hr
    simp only [Option.map_some', Option.getD_some] at hr
    have hp : p ∈ st.buffer := List.mem_of_find?_eq_some hfind
    have hpred := List.find?_some hfind
    have hkey : p.1 = st.clock := by simpa using hpred
    rw [(h p hp).2 r hr, hkey]

/-- The invariant the millisecond loop maintains: pending buffer entries
are never in the past and are filed under their records' timestamps, and
the raw stream holds only past-tick records, in non-decreasing timestamp
order. -/
def TickInv (st : GenState) : Prop :=
  BufWF st.clock st.buffer ∧
  (∀ r ∈ st.rawOut, r.timestamp < st.clock) ∧
  List.Pairwise (fun a b => a.timestamp ≤ b.timestamp) st.rawOut

theorem runTick_inv (cfg : GenCfg) (dg : DG) (st : GenState)
    (h : TickInv st) : TickInv (runTick cfg dg st) := by
  obtain ⟨hbuf, hpast, hpair⟩ := h
  have herase : BufWF (st.clock + 1) (bufErase st.buffer st.clock) :=
    bufErase_wf hbuf
  have hlat : st.clock + 1 ≤ st.clock + SERVER_LATENCY := by
    unfold SERVER_LATENCY; omega
  have hfill := genFill_spec dg st.clock (st.clock + 1) hlat
    (cfg.flows_per_ms - ((bufLookup st.buffer st.clock).getD []).length)
    ((bufLookup st.buffer st.clock).getD [])
    (bufErase st.buffer st.clock) st.rng herase (drained_ts hbuf)
  refine ⟨?_, ?_, ?_⟩
  · exact hfill.2
  · intro r hr
    simp only [runTick] at hr
    rcases List.mem_append.mp hr with h1 | h2
    · have := hpast r h1
      simp only [runTick]
      omega
    · have := hfill.1 r h2
      simp only [runTick]
      omega
  · simp only [runTick]
    rw [List.pairwise_append]
    refine ⟨hpair, pairwise_of_const_ts hfill.1, ?_⟩
    intro a ha b hb
    rw [hfill.1 b hb]
    exact le_of_lt (hpast a ha)

theorem runTicks_inv (cfg : GenCfg) (dg : DG) :
    ∀ (n : Nat) (st : GenState), TickInv st → TickInv (runTicks cfg dg n st) := by
  intro n
  induction n with
  | zero => intro st h; exact h
  | succ n ih => intro st h; exact ih _ (runTick_inv cfg dg st h)

theorem applySampling_clock (cfg : GenCfg) (st1 : GenState) :
    (applySampling cfg st1).clock = st1.clock := rfl

theorem applySampling_buffer (cfg : GenCfg) (st1 : GenState) :
    (applySampling cfg st1).buffer = st1.buffer := rfl

theorem applySampling_rawOut (cfg : GenCfg) (st1 : GenState) :
    (applySampling cfg st1).rawOut = st1.rawOut := rfl

theorem applySampling_inv (cfg : GenCfg) (st1 : GenState)
    (h : TickInv st1) : TickInv (applySampling cfg st1) := by
  unfold TickInv
  rw [applySampling_clock, applySampling_buffer, applySampling_rawOut]
  exact ⟨h.1, h.2.1, h.2.2⟩

theorem runSecond_inv (cfg : GenCfg) (dg : DG) (st : GenState)
    (h : TickInv st) : TickInv (runSecond cfg dg st) :=
  applySampling_inv cfg (runTicks cfg dg 1000 st)
    (runTicks_inv cfg dg 1000 st h)

theorem runGen_inv (cfg : GenCfg) (dg : DG) :
    ∀ (fuel : Nat) (st : GenState), TickInv st →
      TickInv (runGen cfg dg fuel st) := by
  intro fuel
  induction fuel with
  | zero => intro st h; exact h
  | succ n ih =>
    intro st h
    simp only [runGen]
    split
    · exact ih _ (runSecond_inv cfg dg st h)
    · exact h

theorem initState_inv (dg : DG) (o : Nat → Nat) : TickInv (initState dg o) := by
  refine ⟨?_, ?_, ?_⟩
  · intro p hp; simp [initState] at hp
  · intro r hr; simp [initState] at hr
  · simp [initState]

/-- C7: in every run of `generate_data` — any parameters, any random
oracle, any number of completed outer iterations — the raw output stream
is monotonically non-decreasing in timestamp: each record (fresh client
or drained buffered server record) is emitted only during the tick whose
clock equals its own timestamp, and the clock only increases. -/
theorem generate_data_raw_monotone (cfg : GenCfg) (dg : DG)
    (o : Nat → Nat) (fuel : Nat) :
    List.Pairwise (fun a b => a.timestamp ≤ b.timestamp)
      (generate_data cfg dg o fuel).rawOut :=
  (runGen_inv cfg dg fuel (initState dg o) (initState_inv dg o)).2.2

theorem bufLookup_erase_self (t : Int) :
    ∀ b : List (Int × List FlowRecord), bufLookup (bufErase b t) t = none := by
  intro b
  induction b with
  | nil => rfl
  | cons hd tl ih =>
    obtain ⟨k, l⟩ := hd
    by_cases hk : k = t
    · simp only [bufErase, List.filter_cons, hk] at ih ⊢
      simp only [beq_self_eq_true, Bool.not_true, Bool.false_eq_true, if_false]
      exact ih
    · have hbeq : (k == t) = false := by simpa using hk
      simp only [bufErase, bufLookup, List.filter_cons, List.find?_cons,
        hbeq, Bool.not_false, if_true, Bool.false_eq_true] at ih ⊢
      exact ih

theorem bufLookup_insert_ne {t t' : Int} (h : t ≠ t') (r : FlowRecord) :
    ∀ b : List (Int × List FlowRecord),
      bufLookup (bufInsert t r b) t' = bufLookup b t' := by
  intro b
  induction b with
  | nil =>
    have hbeq : (t == t') = false := by simpa using h
    simp [bufInsert, bufLookup, List.find?_cons, hbeq]
  | cons hd tl ih =>
    obtain ⟨k, l⟩ := hd
    by_cases hk : k = t
    · have hkt' : (k == t') = false := by
        simp only [beq_eq_false_iff_ne]
        rw [hk]; exact h
      have hkt : (k == t) = true := by simpa using hk
      simp [bufInsert, bufLookup, List.find?_cons, hkt, hkt']
    · have hkt : (k == t) = false := by simpa using hk
      by_cases hk' : k = t'
      · have hkt' : (k == t') = true := by simpa using hk'
        simp [bufInsert, bufLookup, List.find?_cons, hkt, hkt']
      · have hkt' : (k == t') = false := by simpa using hk'
        simpa [bufInsert, bufLookup, List.find?_cons, hkt, hkt'] using ih

theorem genFill_keeps_none (dg : DG) (c t' : Int)
    (ht : t' < c + SERVER_LATENCY) :
    ∀ (n : Nat) (flows : List FlowRecord)
      (buffer : List (Int × List FlowRecord)) (rng : Rng),
      bufLookup buffer t' = none →
      bufLookup (genFill dg c n flows buffer rng).2.1 t' = none := by
  intro n
  induction n with
  | zero => intro flows buffer rng h; exact h
  | succ n ih =>
    intro flows buffer rng h
    obtain ⟨_, j, _, hs, _, _⟩ := generatePair_timestamps dg c rng
    simp only [genFill]
    apply ih
    rw [bufLookup_insert_ne ?_ _ buffer]
    · exact h
    · rw [hs]
      have : (0 : Int) ≤ (j : Int) := Int.natCast_nonneg j
      unfold SERVER_LATENCY at ht ⊢
      omega

theorem genFill_append (dg : DG) (c : Int) :
    ∀ (n : Nat) (flows : List FlowRecord)
      (buffer : List (Int × List FlowRecord)) (rng : Rng),
      ∃ gen, (genFill dg c n flows buffer rng).1 = flows ++ gen := by
  intro n
  induction n with
  | zero => intro flows buffer rng; exact ⟨[], (List.append_nil flows).symm⟩
  | succ n ih =>
    intro flows buffer rng
    simp only [genFill]
    obtain ⟨gen, hg⟩ := ih (flows ++ [(generate_flow_record dg c rng).1])
      (bufInsert (generate_flow_record dg c rng).2.1.timestamp
        (generate_flow_record dg c rng).2.1 buffer)
      (generate_flow_record dg c rng).2.2
    exact ⟨[(generate_flow_record dg c rng).1] ++ gen, by
      rw [hg, List.append_assoc]⟩

/-- C3 (amended): the future-flow buffer behaves as a deferred-emission
queue — each tick appends exactly the entries filed under the current
clock (a missing key is a silent no-op contributing nothing) followed by
the tick's freshly generated flows to the raw stream, and removes that
key, so an entry is drained at most once, at the tick matching its key;
buffered records are always filed under their own timestamp, and any
entries still buffered when the loop exits are strictly in the future
(their timestamps were never reached) and remain undrained. -/
theorem flow_buffer_drain_behavior (cfg : GenCfg) (dg : DG) :
    (∀ st : GenState, ∃ gen,
        (runTick cfg dg st).rawOut =
          st.rawOut ++ (bufLookup st.buffer st.clock).getD [] ++ gen) ∧
    (∀ st : GenState,
        bufLookup (runTick cfg dg st).buffer st.clock = none) ∧
    (∀ (o : Nat → Nat) (fuel : Nat),
        ∀ p ∈ (generate_data cfg dg o fuel).buffer,
          (generate_data cfg dg o fuel).clock ≤ p.1 ∧
          ∀ r ∈ p.2, r.timestamp = p.1) := by
  refine ⟨?_, ?_, ?_⟩
  · intro st
    obtain ⟨gen, hg⟩ := genFill_append dg st.clock
      (cfg.flows_per_ms - ((bufLookup st.buffer st.clock).getD []).length)
      ((bufLookup st.buffer st.clock).getD [])
      (bufErase st.buffer st.clock) st.rng
    refine ⟨gen, ?_⟩
    show st.rawOut ++
      (genFill dg st.clock
        (cfg.flows_per_ms - ((bufLookup st.buffer st.clock).getD []).length)
        ((bufLookup st.buffer st.clock).getD [])
        (bufErase st.buffer st.clock) st.rng).1 = _
    rw [hg, List.append_assoc]
  · intro st
    show bufLookup
      (genFill dg st.clock
        (cfg.flows_per_ms - ((bufLookup st.buffer st.clock).getD []).length)
        ((bufLookup st.buffer st.clock).getD [])
        (bufErase st.buffer st.clock) st.rng).2.1 st.clock = none
    apply genFill_keeps_none dg st.clock st.clock
      (by unfold SERVER_LATENCY; omega)
    exact bufLookup_erase_self st.clock st.buffer
  · intro o fuel
    exact (runGen_inv cfg dg fuel (initState dg o) (initState_inv dg o)).1

/-- The projection of the generation state that drives the loop forward.
`rawOut`, `rawSecond` and the sampled stream are write-only accumulators,
so for a fixed oracle the clock, the flow counter, the future-flow buffer
and the next draw index determine every later observable state. -/
structure Obs where
  clock : Int
  total : Nat
  buffer : List (Int × List FlowRecord)
  idx : Nat
deriving DecidableEq

/-- Observable part of a generation state. -/
def obsOf (st : GenState) : Obs :=
  { clock := st.clock, total := st.total, buffer := st.buffer,
    idx := st.rng.i }

/-- `runTick` restricted to the observable state. -/
def obsTick (cfg : GenCfg) (dg : DG) (o : Nat → Nat) (ob : Obs) : Obs :=
  let drained := (bufLookup ob.buffer ob.clock).getD []
  let res := genFill dg ob.clock (cfg.flows_per_ms - drained.length)
    drained (bufErase ob.buffer ob.clock) { o := o, i := ob.idx }
  { clock := ob.clock + 1, total := ob.total + res.1.length,
    buffer := res.2.1, idx := res.2.2.i }

/-- Iterated `obsTick`. -/
def obsTicks (cfg : GenCfg) (dg : DG) (o : Nat → Nat) : Nat → Obs → Obs
  | 0, ob => ob
  | n + 1, ob => obsTicks cfg dg o n (obsTick cfg dg o ob)

theorem generate_o (dg : DG) (t : Int) (rng : Rng) :
    (generate_flow_record dg t rng).2.2.o = rng.o := rfl

theorem genFill_o (dg : DG) (c : Int) :
    ∀ (n : Nat) (flows : List FlowRecord)
      (buffer : List (Int × List FlowRecord)) (rng : Rng),
      (genFill dg c n flows buffer rng).2.2.o = rng.o := by
  intro n
  induction n with
  | zero => intro flows buffer rng; rfl
  | succ n ih =>
    intro flows buffer rng
    simp only [genFill]
    rw [ih]
    rfl

theorem runTick_o (cfg : GenCfg) (dg : DG) (st : GenState) :
    (runTick cfg dg st).rng.o = st.rng.o := by
  show (genFill dg st.clock
    (cfg.flows_per_ms - ((bufLookup st.buffer st.clock).getD []).length)
    ((bufLookup st.buffer st.clock).getD [])
    (bufErase st.buffer st.clock) st.rng).2.2.o = st.rng.o
  exact genFill_o dg st.clock _ _ _ _

theorem obsOf_runTick (cfg : GenCfg) (dg : DG) (st : GenState) :
    obsOf (runTick cfg dg st) = obsTick cfg dg st.rng.o (obsOf st) := rfl

theorem obsOf_runTicks (cfg : GenCfg) (dg : DG) :
    ∀ (n : Nat) (st : GenState),
      obsOf (runTicks cfg dg n st) =
        obsTicks cfg dg st.rng.o n (obsOf st) := by
  intro n
  induction n with
  | zero => intro st; rfl
  | succ n ih =>
    intro st
    show obsOf (runTicks cfg dg n (runTick cfg dg st)) = _
    rw [ih, runTick_o, obsOf_runTick]
    rfl

theorem obsTicks_add (cfg : GenCfg) (dg : DG) (o : Nat → Nat) :
    ∀ (m n : Nat) (ob : Obs),
      obsTicks cfg dg o (m + n) ob =
        obsTicks cfg dg o n (obsTicks cfg dg o m ob) := by
  intro m
  induction m with
  | zero =>
    intro n ob
    rw [Nat.zero_add]
    rfl
  | succ m ih =>
    intro n ob
    rw [Nat.succ_add]
    show obsTicks cfg dg o (m + n) (obsTick cfg dg o ob) = _
    rw [ih]
    rfl

theorem applySampling_total (cfg : GenCfg) (st1 : GenState) :
    (applySampling cfg st1).total = st1.total := rfl

theorem obsOf_total (st : GenState) : (obsOf st).total = st.total := rfl

theorem obsOf_buffer (st : GenState) : (obsOf st).buffer = st.buffer := rfl

/-- Concrete route for the C3 counterexample run. -/
def cexRoute : ASNRoute :=
  { subnet_bits := 24, network_address := 167772160,
    broadcast_address := 167772414, next_hop := 167774722,
    ip_range_start := 167772162, ip_range_end := 167772413,
    asn := 3320, country := "US", as_description := "TEST", ifindex := 10 }

/-- Concrete generator state for the C3 counterexample run. -/
def cexDG : DG :=
  { system_id := List.replicate 16 0, route_table := [(3320, cexRoute)],
    server_list := [168430090] }

/-- Concrete parameters for the C3 counterexample run: one requested
flow, one flow per millisecond, 1:1 sampling. -/
def cexCfg : GenCfg :=
  { flows_to_make := 1, flows_per_ms := 1, sampling_rate := 1 }

/-- With the all-zeros oracle the run is 30-tick periodic: at each cycle
boundary the buffer is empty, the clock and counter have advanced by 30
and 165 draws have been consumed (15 generating ticks of 11 draws). -/
def cexObs (k : Nat) : Obs :=
  { clock := 60000 + 30 * k, total := 30 * k, buffer := [],
    idx := 11 + 165 * k }


set_option maxRecDepth 40000 in
theorem cexChunk0 :
    obsTicks cexCfg cexDG (fun _ => 0) 30 (cexObs 0) = cexObs 1 := by
  decide

set_option maxRecDepth 40000 in
theorem cexChunk1 :
    obsTicks cexCfg cexDG (fun _ => 0) 30 (cexObs 1) = cexObs 2 := by
  decide

set_option maxRecDepth 40000 in
theorem cexChunk2 :
    obsTicks cexCfg cexDG (fun _ => 0) 30 (cexObs 2) = cexObs 3 := by
  decide

set_option maxRecDepth 40000 in
theorem cexChunk3 :
    obsTicks cexCfg cexDG (fun _ => 0) 30 (cexObs 3) = cexObs 4 := by
  decide

set_option maxRecDepth 40000 in
theorem cexChunk4 :
    obsTicks cexCfg cexDG (fun _ => 0) 30 (cexObs 4) = cexObs 5 := by
  decide

set_option maxRecDepth 40000 in
theorem cexChunk5 :
    obsTicks cexCfg cexDG (fun _ => 0) 30 (cexObs 5) = cexObs 6 := by
  decide

set_option maxRecDepth 40000 in
theorem cexChunk6 :
    obsTicks cexCfg cexDG (fun _ => 0) 30 (cexObs 6) = cexObs 7 := by
  decide

set_option maxRecDepth 40000 in
theorem cexChunk7 :
    obsTicks cexCfg cexDG (fun _ => 0) 30 (cexObs 7) = cexObs 8 := by
  decide

set_option maxRecDepth 40000 in
theorem cexChunk8 :
    obsTicks cexCfg cexDG (fun _ => 0) 30 (cexObs 8) = cexObs 9 := by
  decide

set_option maxRecDepth 40000 in
theorem cexChunk9 :
    obsTicks cexCfg cexDG (fun _ => 0) 30 (cexObs 9) = cexObs 10 := by
  decide

set_option maxRecDepth 40000 in
theorem cexChunk10 :
    obsTicks cexCfg cexDG (fun _ => 0) 30 (cexObs 10) = cexObs 11 := by
  decide

set_option maxRecDepth 40000 in
theorem cexChunk11 :
    obsTicks cexCfg cexDG (fun _ => 0) 30 (cexObs 11) = cexObs 12 := by
  decide

set_option maxRecDepth 40000 in
theorem cexChunk12 :
    obsTicks cexCfg cexDG (fun _ => 0) 30 (cexObs 12) = cexObs 13 := by
  decide

set_option maxRecDepth 40000 in
theorem cexChunk13 :
    obsTicks cexCfg cexDG (fun _ => 0) 30 (cexObs 13) = cexObs 14 := by
  decide

set_option maxRecDepth 40000 in
theorem cexChunk14 :
    obsTicks cexCfg cexDG (fun _ => 0) 30 (cexObs 14) = cexObs 15 := by
  decide

set_option maxRecDepth 40000 in
theorem cexChunk15 :
    obsTicks cexCfg cexDG (fun _ => 0) 30 (cexObs 15) = cexObs 16 := by
  decide

set_option maxRecDepth 40000 in
theorem cexChunk16 :
    obsTicks cexCfg cexDG (fun _ => 0) 30 (cexObs 16) = cexObs 17 := by
  decide

set_option maxRecDepth 40000 in
theorem cexChunk17 :
    obsTicks cexCfg cexDG (fun _ => 0) 30 (cexObs 17) = cexObs 18 := by
  decide

set_option maxRecDepth 40000 in
theorem cexChunk18 :
    obsTicks cexCfg cexDG (fun _ => 0) 30 (cexObs 18) = cexObs 19 := by
  decide

set_option maxRecDepth 40000 in
theorem cexChunk19 :
    obsTicks cexCfg cexDG (fun _ => 0) 30 (cexObs 19) = cexObs 20 := by
  decide

set_option maxRecDepth 40000 in
theorem cexChunk20 :
    obsTicks cexCfg cexDG (fun _ => 0) 30 (cexObs 20) = cexObs 21 := by
  decide

set_option maxRecDepth 40000 in
theorem cexChunk21 :
    obsTicks cexCfg cexDG (fun _ => 0) 30 (cexObs 21) = cexObs 22 := by
  decide

set_option maxRecDepth 40000 in
theorem cexChunk22 :
    obsTicks cexCfg cexDG (fun _ => 0) 30 (cexObs 22) = cexObs 23 := by
  decide

set_option maxRecDepth 40000 in
theorem cexChunk23 :
    obsTicks cexCfg cexDG (fun _ => 0) 30 (cexObs 23) = cexObs 24 := by
  decide

set_option maxRecDepth 40000 in
theorem cexChunk24 :
    obsTicks cexCfg cexDG (fun _ => 0) 30 (cexObs 24) = cexObs 25 := by
  decide

set_option maxRecDepth 40000 in
theorem cexChunk25 :
    obsTicks cexCfg cexDG (fun _ => 0) 30 (cexObs 25) = cexObs 26 := by
  decide

set_option maxRecDepth 40000 in
theorem cexChunk26 :
    obsTicks cexCfg cexDG (fun _ => 0) 30 (cexObs 26) = cexObs 27 := by
  decide

set_option maxRecDepth 40000 in
theorem cexChunk27 :
    obsTicks cexCfg cexDG (fun _ => 0) 30 (cexObs 27) = cexObs 28 := by
  decide

set_option maxRecDepth 40000 in
theorem cexChunk28 :
    obsTicks cexCfg cexDG (fun _ => 0) 30 (cexObs 28) = cexObs 29 := by
  decide

set_option maxRecDepth 40000 in
theorem cexChunk29 :
    obsTicks cexCfg cexDG (fun _ => 0) 30 (cexObs 29) = cexObs 30 := by
  decide

set_option maxRecDepth 40000 in
theorem cexChunk30 :
    obsTicks cexCfg cexDG (fun _ => 0) 30 (cexObs 30) = cexObs 31 := by
  decide

set_option maxRecDepth 40000 in
theorem cexChunk31 :
    obsTicks cexCfg cexDG (fun _ => 0) 30 (cexObs 31) = cexObs 32 := by
  decide

set_option maxRecDepth 40000 in
theorem cexChunk32 :
    obsTicks cexCfg cexDG (fun _ => 0) 30 (cexObs 32) = cexObs 33 := by
  decide

set_option maxRecDepth 40000 in
/-- C3 counterexample: the concrete run `cexCfg`/`cexDG` with the
all-zeros oracle exits its loop (1000 ≥ 1 flows made), yet ten server
records inserted during the final fifteen milliseconds are still sitting
undrained in the future-flow buffer (keys 61005..61014, all beyond the
final clock 61000). -/
theorem flow_buffer_leftover_counterexample :
    cexCfg.flows_to_make ≤ (generate_data cexCfg cexDG (fun _ => 0) 1).total ∧
    (generate_data cexCfg cexDG (fun _ => 0) 1).buffer ≠ [] := by
  have hgen : generate_data cexCfg cexDG (fun _ => 0) 1 =
      applySampling cexCfg
        (runTicks cexCfg cexDG 1000 (initState cexDG (fun _ => 0))) := by
    show runGen cexCfg cexDG 1 (initState cexDG (fun _ => 0)) = _
    simp only [runGen]
    rw [if_pos (by decide :
      (initState cexDG (fun _ => 0)).total < cexCfg.flows_to_make)]
    rfl
  have hobs : obsOf (runTicks cexCfg cexDG 1000 (initState cexDG (fun _ => 0))) =
      obsTicks cexCfg cexDG (fun _ => 0) 10 (cexObs 33) := by
    rw [obsOf_runTicks]
    rw [show (initState cexDG (fun _ => 0)).rng.o = (fun _ => 0) from rfl]
    rw [show obsOf (initState cexDG (fun _ => 0)) = cexObs 0 by decide]
    rw [show (1000 : Nat) = 30 + 970 from rfl, obsTicks_add, cexChunk0]
    rw [show (970 : Nat) = 30 + 940 from rfl, obsTicks_add, cexChunk1]
    rw [show (940 : Nat) = 30 + 910 from rfl, obsTicks_add, cexChunk2]
    rw [show (910 : Nat) = 30 + 880 from rfl, obsTicks_add, cexChunk3]
    rw [show (880 : Nat) = 30 + 850 from rfl, obsTicks_add, cexChunk4]
    rw [show (850 : Nat) = 30 + 820 from rfl, obsTicks_add, cexChunk5]
    rw [show (820 : Nat) = 30 + 790 from rfl, obsTicks_add, cexChunk6]
    rw [show (790 : Nat) = 30 + 760 from rfl, obsTicks_add, cexChunk7]
    rw [show (760 : Nat) = 30 + 730 from rfl, obsTicks_add, cexChunk8]
    rw [show (730 : Nat) = 30 + 700 from rfl, obsTicks_add, cexChunk9]
    rw [show (700 : Nat) = 30 + 670 from rfl, obsTicks_add, cexChunk10]
    rw [show (670 : Nat) = 30 + 640 from rfl, obsTicks_add, cexChunk11]
    rw [show (640 : Nat) = 30 + 610 from rfl, obsTicks_add, cexChunk12]
    rw [show (610 : Nat) = 30 + 580 from rfl, obsTicks_add, cexChunk13]
    rw [show (580 : Nat) = 30 + 550 from rfl, obsTicks_add, cexChunk14]
    rw [show (550 : Nat) = 30 + 520 from rfl, obsTicks_add, cexChunk15]
    rw [show (520 : Nat) = 30 + 490 from rfl, obsTicks_add, cexChunk16]
    rw [show (490 : Nat) = 30 + 460 from rfl, obsTicks_add, cexChunk17]
    rw [show (460 : Nat) = 30 + 430 from rfl, obsTicks_add, cexChunk18]
    rw [show (430 : Nat) = 30 + 400 from rfl, obsTicks_add, cexChunk19]
    rw [show (400 : Nat) = 30 + 370 from rfl, obsTicks_add, cexChunk20]
    rw [show (370 : Nat) = 30 + 340 from rfl, obsTicks_add, cexChunk21]
    rw [show (340 : Nat) = 30 + 310 from rfl, obsTicks_add, cexChunk22]
    rw [show (310 : Nat) = 30 + 280 from rfl, obsTicks_add, cexChunk23]
    rw [show (280 : Nat) = 30 + 250 from rfl, obsTicks_add, cexChunk24]
    rw [show (250 : Nat) = 30 + 220 from rfl, obsTicks_add, cexChunk25]
    rw [show (220 : Nat) = 30 + 190 from rfl, obsTicks_add, cexChunk26]
    rw [show (190 : Nat) = 30 + 160 from rfl, obsTicks_add, cexChunk27]
    rw [show (160 : Nat) = 30 + 130 from rfl, obsTicks_add, cexChunk28]
    rw [show (130 : Nat) = 30 + 100 from rfl, obsTicks_add, cexChunk29]
    rw [show (100 : Nat) = 30 + 70 from rfl, obsTicks_add, cexChunk30]
    rw [show (70 : Nat) = 30 + 40 from rfl, obsTicks_add, cexChunk31]
    rw [show (40 : Nat) = 30 + 10 from rfl, obsTicks_add, cexChunk32]
  constructor
  · rw [hgen, applySampling_total, ← obsOf_total, hobs]
    decide
  · rw [hgen, applySampling_buffer, ← obsOf_buffer, hobs]
    decide

/-- The `start_index` the sampling loop carries at iteration `k`
(src/data_gen.py lines 647, 653): 0 at first, then always the previous
`end_index + 1`. -/
def segStart (R : Nat) (k : Nat) : Nat :=
  if k = 0 then 0 else k * (R - 1) + 1

/-- The `end_index` the sampling loop carries at iteration `k`
(src/data_gen.py lines 648, 654): `R - 1` at first, then advancing by
`R - 1` per iteration — `(k + 1) * (R - 1)` in closed form. -/
def segEnd (R : Nat) (k : Nat) : Nat :=
  (k + 1) * (R - 1)

theorem segStart_succ (R k : Nat) :
    segStart R (k + 1) = segEnd R k + 1 := by
  simp [segStart, segEnd]

theorem segEnd_succ (R : Nat) (hR : 1 ≤ R) (k : Nat) :
    segEnd R (k + 1) = segEnd R k + R - 1 := by
  unfold segEnd
  rw [Nat.succ_mul (k + 1) (R - 1)]
  generalize (k + 1) * (R - 1) = a
  omega

/-- The record emitted for segment `k` by the sampling loop when its
draw is `d`: a uniformly random index of `[start_index, end_index]`,
clamped into the buffer. -/
def segPick (R : Nat) (raws : List FlowRecord) (d k : Nat) : FlowRecord :=
  let s := segStart R k
  let e := segEnd R k
  let rf0 := s + d % (e - s + 1)
  raws.getD (if rf0 < raws.length then rf0 else raws.length - 1) default

theorem sampleLoop_char (R : Nat) (hR : 1 ≤ R) (raws : List FlowRecord)
    (o : Nat → Nat) :
    ∀ (n k i : Nat),
      (sampleLoop R raws n (segStart R k) (segEnd R k)
        { o := o, i := i }).1 =
      (List.range n).map (fun j => segPick R raws (o (i + j)) (k + j)) := by
  intro n
  induction n with
  | zero => intro k i; rfl
  | succ n ih =>
    intro k i
    simp only [sampleLoop, Rng.next]
    rw [show segEnd R k + 1 = segStart R (k + 1) from (segStart_succ R k).symm,
      show segEnd R k + R - 1 = segEnd R (k + 1) from (segEnd_succ R hR k).symm,
      ih (k + 1) (i + 1)]
    rw [List.range_succ_eq_map, List.map_cons, List.map_map]
    congr 1
    apply List.map_congr_left
    intro j _
    simp only [Function.comp_apply, Nat.succ_eq_add_one]
    have h1 : i + 1 + j = i + (j + 1) := by omega
    have h2 : k + 1 + j = k + (j + 1) := by omega
    rw [h1, h2]

/-- C1 (amended): the sampling loop over a one-second window emits exactly
`segments = fps / max(1, fps / R)` records, the `k`-th drawn uniformly
(clamped into the buffer) from the contiguous, non-overlapping index
range `[segStart k, segEnd k]` — whose width is `R` for the FIRST segment
but only `R - 1` for every later segment, because `end_index` advances by
`R - 1` per iteration while `start_index` jumps to `end_index + 1`. -/
theorem device_sampling_segments (cfg : GenCfg) (raws : List FlowRecord)
    (o : Nat → Nat) (i : Nat) (hR : 2 ≤ cfg.sampling_rate) :
    (sampleLoop cfg.sampling_rate raws (segmentsOf cfg) 0
        (cfg.sampling_rate - 1) { o := o, i := i }).1.length =
      segmentsOf cfg ∧
    fpsAfterSampling cfg = max 1 (fpsOf cfg / cfg.sampling_rate) ∧
    segmentsOf cfg = fpsOf cfg / fpsAfterSampling cfg ∧
    (sampleLoop cfg.sampling_rate raws (segmentsOf cfg) 0
        (cfg.sampling_rate - 1) { o := o, i := i }).1 =
      (List.range (segmentsOf cfg)).map
        (fun j => segPick cfg.sampling_rate raws (o (i + j)) j) ∧
    segEnd cfg.sampling_rate 0 + 1 - segStart cfg.sampling_rate 0 =
      cfg.sampling_rate ∧
    (∀ k, segStart cfg.sampling_rate (k + 1) =
      segEnd cfg.sampling_rate k + 1) ∧
    (∀ k, segEnd cfg.sampling_rate (k + 1) + 1 -
      segStart cfg.sampling_rate (k + 1) = cfg.sampling_rate - 1) := by
  have hR1 : 1 ≤ cfg.sampling_rate := le_trans (by norm_num) hR
  have hchar := sampleLoop_char cfg.sampling_rate hR1 raws o
    (segmentsOf cfg) 0 i
  have hz : segStart cfg.sampling_rate 0 = 0 := rfl
  have he : segEnd cfg.sampling_rate 0 = cfg.sampling_rate - 1 := by
    simp [segEnd]
  rw [hz, he] at hchar
  simp only [Nat.zero_add] at hchar
  refine ⟨?_, ?_, rfl, hchar, ?_, segStart_succ cfg.sampling_rate, ?_⟩
  · rw [hchar]
    simp
  · unfold fpsAfterSampling
    generalize fpsOf cfg / cfg.sampling_rate = x
    rcases Nat.eq_zero_or_pos x with h0 | hpos
    · simp [h0]
    · simp [hpos, Nat.max_eq_right hpos]
  · simp [segStart, segEnd]
    omega
  · intro k
    simp only [segStart, segEnd, if_neg (Nat.succ_ne_zero k)]
    rw [Nat.succ_mul (k + 1) (cfg.sampling_rate - 1)]
    generalize (k + 1) * (cfg.sampling_rate - 1) = a
    omega

/-- Parameters for the C1 counterexample: 1000 raw flows per second,
3:1 sampling (so `fps_after_sampling = 333`, `segments = 3`). -/
def cexCfgS : GenCfg :=
  { flows_to_make := 0, flows_per_ms := 1, sampling_rate := 3 }

/-- A one-second window of `fps = 1000` pairwise distinct records. -/
def cexRaws : List FlowRecord :=
  (List.range 1000).map (fun n => { zeroRecord with timestamp := (n : Int) })

/-- Modelled from the claim's words (for comparison with `sampleLoop`,
the code's loop): partition the window into `segments` contiguous,
non-overlapping ranges each of width `R` starting at index 0 (the last
range clamped to the buffer end), draw one uniformly random index from
each range, and clamp any drawn index past the buffer's length to the
last valid index. -/
def specSampleWindow (R : Nat) (raws : List FlowRecord) (segs : Nat)
    (o : Nat → Nat) (i : Nat) : List FlowRecord :=
  (List.range segs).map (fun k =>
    let s := k * R
    let e := min (s + R - 1) (raws.length - 1)
    let rf0 := s + o (i + k) % (e + 1 - s)
    raws.getD (if rf0 < raws.length then rf0 else raws.length - 1) default)

set_option maxRecDepth 40000 in
/-- C1 counterexample: with `fps = 1000`, `R = 3` (so `segments = 3`) and
every draw equal to 2, the code's second sampled record comes from the
loop's width-2 range `[3, 4]` and is `raws[3]`, while the claim's width-3
partition makes the second range `[3, 5]`, whose uniform draw 2 selects
`raws[5]` — a record the code's segment could never produce. -/
theorem sampling_range_width_counterexample :
    segmentsOf cexCfgS = 3 ∧
    (sampleLoop cexCfgS.sampling_rate cexRaws (segmentsOf cexCfgS) 0
        (cexCfgS.sampling_rate - 1) { o := fun _ => 2, i := 0 }).1.getD 1
        default = cexRaws.getD 3 default ∧
    (specSampleWindow cexCfgS.sampling_rate cexRaws (segmentsOf cexCfgS)
        (fun _ => 2) 0).getD 1 default = cexRaws.getD 5 default ∧
    cexRaws.getD 3 default ≠ cexRaws.getD 5 default := by
  refine ⟨by decide, by decide, by decide, by decide⟩

/-- Witness for `device_sampling_segments` at the concrete window
`cexRaws` with ratio 3. -/
theorem device_sampling_segments_witness :
    (sampleLoop cexCfgS.sampling_rate cexRaws (segmentsOf cexCfgS) 0
        (cexCfgS.sampling_rate - 1) { o := fun _ => 2, i := 0 }).1.length =
      segmentsOf cexCfgS :=
  (device_sampling_segments cexCfgS cexRaws (fun _ => 2) 0 (by decide)).1
